import Mathlib

/-!
Shallow embedding of the multi-tenant core of the payments-orders-service
repository: the tenant extraction middleware, the TenantService quota and
onboarding logic, the BaseTenantRepository data-access layer, and the
generic BaseRepository with its in-memory and relational backends.
Each definition is translated from the corresponding TypeScript source.
-/

/-- A value stored in a dynamically keyed row or data object: string,
integer, timestamp (a Date, as epoch units) or SQL NULL. -/
inductive Value where
  | str (s : String)
  | num (n : Int)
  | time (t : Nat)
  | null
deriving DecidableEq, Repr

/-- A JavaScript-style object or SQL row: an association list from string
keys to values. Later writes override earlier bindings via Obj.set. -/
abbrev Obj := List (String × Value)

/-- Reading a key from an object (undefined when absent). -/
def Obj.get (o : Obj) (k : String) : Option Value :=
  (o.find? (fun p => p.1 = k)).map (fun p => p.2)

/-- Setting a key, overriding any earlier binding: the semantics of a
spread followed by an explicit key in an object literal. -/
def Obj.set (o : Obj) (k : String) (v : Value) : Obj :=
  o.filter (fun p => p.1 ≠ k) ++ [(k, v)]

/-- Applying every binding of data onto a base row: the effect of an SQL
UPDATE whose SET clause lists exactly the keys of data. -/
def Obj.applyAll (base : Obj) (data : Obj) : Obj :=
  data.foldl (fun acc p => acc.set p.1 p.2) base

/-- JavaScript truthiness fallback for an optional number, as in the
expression x OR d: absent and zero both fall back to d. -/
def jsOrNat (x : Option Nat) (d : Nat) : Nat :=
  match x with
  | some n => if n = 0 then d else n
  | none => d

/-- JavaScript truthiness fallback for an optional string: absent and the
empty string both fall back to d. -/
def jsOrStr (x : Option String) (d : String) : String :=
  match x with
  | some s => if s = "" then d else s
  | none => d

namespace TenantRepo

/-- Errors surfaced by BaseTenantRepository operations: the explicit throw
in findById, and a cardinality failure of db.one / db.oneOrNone. -/
inductive RepoError where
  | notFound
  | dbError
deriving DecidableEq, Repr

/-- TenantQueryOptions from base-tenant.repository: only the fields the
mutating operations consult. -/
structure TenantQueryOptions where
  userId : Option String := none
  auditLog : Bool := false
deriving DecidableEq, Repr

/-- One row of the audit_logs table as written by logAudit. -/
structure AuditEntry where
  tenantId : String
  userId : String
  action : String
  resource : String
  resourceId : Option Value
  changes : Option Obj
  previous : Option Obj
  timestamp : Nat
deriving DecidableEq, Repr

/-- The storage state a BaseTenantRepository instance acts on: its backing
table, the audit_logs table, and a counter standing in for the id default
generator of the schema. -/
structure RepoDB where
  table : List Obj
  auditLogs : List AuditEntry
  nextId : Nat
deriving DecidableEq, Repr

/-- The compound predicate WHERE tenant_id = $1 AND id = $2. -/
def rowMatches (tenantId id : String) (r : Obj) : Bool :=
  decide (r.get "tenant_id" = some (.str tenantId)) &&
    decide (r.get "id" = some (.str id))

/-- pg-promise oneOrNone: none for zero rows, the row for one, an error
for more than one. -/
def oneOrNone (rows : List Obj) : Except RepoError (Option Obj) :=
  match rows with
  | [] => .ok none
  | [r] => .ok (some r)
  | _ => .error .dbError

/-- pg-promise one: exactly one row or an error. -/
def one (rows : List Obj) : Except RepoError Obj :=
  match rows with
  | [r] => .ok r
  | _ => .error .dbError

/-- SELECT options of findAll. -/
structure FindAllOptions where
  limit : Option Nat := none
  offset : Option Nat := none
deriving DecidableEq, Repr

/-- findAll: SELECT * FROM table WHERE tenant_id = $1 LIMIT $2 OFFSET $3,
with limit defaulting to 1000 and offset to 0 by JavaScript truthiness. -/
def findAll (tenantId : String) (options : FindAllOptions)
    (table : List Obj) : List Obj :=
  let lim := jsOrNat options.limit 1000
  let off := jsOrNat options.offset 0
  (((table.filter
      (fun r => decide (r.get "tenant_id" = some (.str tenantId)))).drop off).take lim)

/-- findById: oneOrNone on WHERE tenant_id = $1 AND id = $2, throwing the
not-found error when no row matches. -/
def findById (tenantId id : String) (table : List Obj) :
    Except RepoError Obj :=
  match oneOrNone (table.filter (rowMatches tenantId id)) with
  | .error e => .error e
  | .ok none => .error .notFound
  | .ok (some r) => .ok r

/-- logAudit: INSERT INTO audit_logs wrapped in a try/catch. The auditOk
flag models whether that INSERT succeeds; on failure the error is caught
and only logged, so the state is returned unchanged and nothing escapes. -/
def logAudit (tenantId : String) (userId : Option String)
    (action resource : String) (resourceId : Option Value)
    (changes previous : Option Obj) (now : Nat) (auditOk : Bool)
    (st : RepoDB) : RepoDB :=
  if auditOk then
    { st with auditLogs := st.auditLogs ++
        [{ tenantId := tenantId, userId := jsOrStr userId "system",
           action := action, resource := resource, resourceId := resourceId,
           changes := changes, previous := previous, timestamp := now }] }
  else
    st

/-- create: injects tenant_id, created_at and updated_at over the caller
data, inserts the row (the schema generates an id when the data carries
none), optionally audit-logs, and returns the inserted row. -/
def create (tenantId : String) (data : Obj) (options : TenantQueryOptions)
    (tableName : String) (now : Nat) (auditOk : Bool) (st : RepoDB) :
    Except RepoError Obj × RepoDB :=
  let dataWithTenant :=
    ((data.set "tenant_id" (.str tenantId)).set "created_at" (.time now)).set
      "updated_at" (.time now)
  let row :=
    match dataWithTenant.get "id" with
    | some _ => dataWithTenant
    | none => dataWithTenant.set "id" (.str (String.append "gen-" (toString st.nextId)))
  let st1 := { st with table := st.table ++ [row], nextId := st.nextId + 1 }
  let st2 :=
    if options.auditLog then
      logAudit tenantId options.userId "CREATE" tableName (row.get "id")
        (some data) none now auditOk st1
    else st1
  (.ok row, st2)

/-- update: read-before-write. findById first; on failure the error
propagates with the state untouched. Otherwise SET every supplied column
plus updated_at under WHERE tenant_id AND id, RETURNING the updated row,
then optionally audit-log with before/after snapshots. -/
def update (tenantId id : String) (data : Obj)
    (options : TenantQueryOptions) (tableName : String) (now : Nat)
    (auditOk : Bool) (st : RepoDB) : Except RepoError Obj × RepoDB :=
  match findById tenantId id st.table with
  | .error e => (.error e, st)
  | .ok existing =>
    let dataWithTimestamp := data.set "updated_at" (.time now)
    let touched := st.table.filter (rowMatches tenantId id)
    let newTable := st.table.map
      (fun r => if rowMatches tenantId id r then r.applyAll dataWithTimestamp else r)
    let st1 := { st with table := newTable }
    match one (touched.map (fun r => r.applyAll dataWithTimestamp)) with
    | .error e => (.error e, st1)
    | .ok updated =>
      let st2 :=
        if options.auditLog then
          logAudit tenantId options.userId "UPDATE" tableName
            (some (.str id)) (some data) (some existing) now auditOk st1
        else st1
      (.ok updated, st2)

/-- delete: verify-then-mutate. findById first; on failure the error
propagates with the state untouched. Otherwise DELETE under WHERE
tenant_id AND id, optionally audit-log, and report whether exactly one
row was removed. -/
def delete (tenantId id : String) (options : TenantQueryOptions)
    (tableName : String) (now : Nat) (auditOk : Bool) (st : RepoDB) :
    Except RepoError Bool × RepoDB :=
  match findById tenantId id st.table with
  | .error e => (.error e, st)
  | .ok _ =>
    let removed := st.table.filter (rowMatches tenantId id)
    let st1 := { st with table := st.table.filter (fun r => !(rowMatches tenantId id r)) }
    let st2 :=
      if options.auditLog then
        logAudit tenantId options.userId "DELETE" tableName
          (some (.str id)) none none now auditOk st1
      else st1
    (.ok (decide (removed.length = 1)), st2)

end TenantRepo

namespace TenantSvc

/-- Errors thrown by TenantService: the tenant-not-found throw of
getTenantInfo, a db.one failure on a missing tenant_quotas row, the four
quota-exceeded throw sites of validateQuota, and an INSERT violating the
UNIQUE constraint on the tenant slug. -/
inductive SvcError where
  | tenantNotFound (tenantId : Nat)
  | noQuotaRow
  | quotaExceeded (resource : String)
  | uniqueViolation
deriving DecidableEq, Repr

/-- A row of the tenants table. Ids are modelled as naturals drawn from a
fresh-id counter standing in for the uuid default of the schema. -/
structure TenantRow where
  id : Nat
  name : String
  slug : String
  email : String
  plan : String
  status : String
  createdAt : Nat
  updatedAt : Nat
  deletedAt : Option Nat
deriving DecidableEq, Repr

/-- A row of the tenant_settings table (columns consulted by the service;
tenant_id is UNIQUE by the schema). -/
structure SettingsRow where
  tenant_id : Nat
  max_users : Int
  max_orders : Int
  max_events : Int
  features : List String
  webhook_url : Option String
  custom_domain : Option String
  data_residency : String
  encryption_enabled : Bool
deriving DecidableEq, Repr

/-- A row of the tenant_quotas table (tenant_id is UNIQUE by the schema). -/
structure QuotaRow where
  tenant_id : Nat
  max_users : Int
  used_users : Int
  max_orders : Int
  used_orders : Int
  max_events : Int
  used_events : Int
  storage_quota_mb : Int
  used_storage_mb : Int
  api_calls_per_day : Int
  used_api_calls : Int
  reset_date : Nat
  updated_at : Nat
deriving DecidableEq, Repr

/-- The TenantSettings object the service hands back to callers. -/
structure TenantSettings where
  maxUsers : Int
  maxOrders : Int
  maxEvents : Int
  features : Option (List String)
  webhookUrl : Option String
  customDomain : Option String
  dataResidency : String
  encryptionEnabled : Bool
deriving DecidableEq, Repr

/-- The TenantQuota object returned by getQuotas. -/
structure TenantQuota where
  tenantId : Nat
  maxUsers : Int
  usedUsers : Int
  maxOrders : Int
  usedOrders : Int
  maxEvents : Int
  usedEvents : Int
  storageQuota : Int
  usedStorage : Int
  apiCallsPerDay : Int
  usedApiCalls : Int
  resetDate : Nat
deriving DecidableEq, Repr

/-- The TenantInfo object returned by getTenantInfo and createTenant
(createTenant returns it without the settings field). -/
structure TenantInfo where
  id : Nat
  name : String
  slug : String
  email : String
  plan : String
  status : String
  createdAt : Nat
  updatedAt : Nat
  settings : Option TenantSettings
deriving DecidableEq, Repr

/-- The slice of the shared database the TenantService reads and writes. -/
structure TenantDB where
  tenants : List TenantRow
  settings : List SettingsRow
  quotas : List QuotaRow
  nextId : Nat
deriving DecidableEq, Repr

/-- One day, in the time units of the model, for the schema reset_date
default NOW() plus one day interval. -/
def oneDay : Nat := 86400

/-- getTenantSettings: oneOrNone on tenant_settings by tenant_id; when no
row exists, the hard-coded default configuration object is returned. -/
def getTenantSettings (tenantId : Nat) (db : TenantDB) : TenantSettings :=
  match db.settings.find? (fun s => s.tenant_id = tenantId) with
  | none =>
    { maxUsers := 10, maxOrders := 1000, maxEvents := 100,
      features := none, webhookUrl := none, customDomain := none,
      dataResidency := "global", encryptionEnabled := false }
  | some s =>
    { maxUsers := s.max_users, maxOrders := s.max_orders,
      maxEvents := s.max_events, features := some s.features,
      webhookUrl := s.webhook_url, customDomain := s.custom_domain,
      dataResidency := s.data_residency,
      encryptionEnabled := s.encryption_enabled }

/-- getTenantInfo: SELECT * FROM tenants WHERE id = $1 AND deleted_at IS
NULL; throws when absent; otherwise returns the row together with the
settings from getTenantSettings. -/
def getTenantInfo (tenantId : Nat) (db : TenantDB) :
    Except SvcError TenantInfo :=
  match db.tenants.find? (fun t => t.id = tenantId && t.deletedAt.isNone) with
  | none => .error (.tenantNotFound tenantId)
  | some t =>
    .ok { id := t.id, name := t.name, slug := t.slug, email := t.email,
          plan := t.plan, status := t.status, createdAt := t.createdAt,
          updatedAt := t.updatedAt,
          settings := some (getTenantSettings tenantId db) }

/-- getQuotas: db.one on tenant_quotas by tenant_id, mapped onto the
TenantQuota shape; a missing row is a thrown error. -/
def getQuotas (tenantId : Nat) (db : TenantDB) :
    Except SvcError TenantQuota :=
  match db.quotas.find? (fun q => q.tenant_id = tenantId) with
  | none => .error .noQuotaRow
  | some q =>
    .ok { tenantId := q.tenant_id, maxUsers := q.max_users,
          usedUsers := q.used_users, maxOrders := q.max_orders,
          usedOrders := q.used_orders, maxEvents := q.max_events,
          usedEvents := q.used_events, storageQuota := q.storage_quota_mb,
          usedStorage := q.used_storage_mb,
          apiCallsPerDay := q.api_calls_per_day,
          usedApiCalls := q.used_api_calls, resetDate := q.reset_date }

/-- validateQuota: reads the quota row and switches on the resource name,
throwing a quota-exceeded error when the used counter has reached the
ceiling; unrecognized resources fall through the switch and succeed. -/
def validateQuota (tenantId : Nat) (resource : String) (db : TenantDB) :
    Except SvcError Bool :=
  match getQuotas tenantId db with
  | .error e => .error e
  | .ok quota =>
    if resource = "users" then
      if quota.maxUsers ≤ quota.usedUsers then .error (.quotaExceeded "users")
      else .ok true
    else if resource = "orders" then
      if quota.maxOrders ≤ quota.usedOrders then .error (.quotaExceeded "orders")
      else .ok true
    else if resource = "events" then
      if quota.maxEvents ≤ quota.usedEvents then .error (.quotaExceeded "events")
      else .ok true
    else if resource = "api_calls" then
      if quota.apiCallsPerDay ≤ quota.usedApiCalls then .error (.quotaExceeded "api_calls")
      else .ok true
    else .ok true

/-- The resource-to-column table of getQuotaFieldForResource. -/
def quotaFieldMap : List (String × String) :=
  [("users", "used_users"), ("orders", "used_orders"),
   ("events", "used_events"), ("api_calls", "used_api_calls"),
   ("storage", "used_storage_mb")]

/-- getQuotaFieldForResource: the mapped column, OR used_orders by
JavaScript truthiness when the resource is not in the table. -/
def getQuotaFieldForResource (resource : String) : String :=
  jsOrStr ((quotaFieldMap.find? (fun p => p.1 = resource)).map (fun p => p.2))
    "used_orders"

/-- The effect of SET field = field + $2, updated_at = NOW() on one row. -/
def QuotaRow.addToField (q : QuotaRow) (field : String) (amount : Int)
    (now : Nat) : QuotaRow :=
  let q1 := { q with updated_at := now }
  if field = "used_users" then { q1 with used_users := q1.used_users + amount }
  else if field = "used_orders" then { q1 with used_orders := q1.used_orders + amount }
  else if field = "used_events" then { q1 with used_events := q1.used_events + amount }
  else if field = "used_api_calls" then { q1 with used_api_calls := q1.used_api_calls + amount }
  else if field = "used_storage_mb" then { q1 with used_storage_mb := q1.used_storage_mb + amount }
  else q1

/-- incrementQuota: UPDATE tenant_quotas SET field = field + $2 WHERE
tenant_id = $1 (a single atomic arithmetic statement; db.none succeeds
whether or not a row matched). -/
def incrementQuota (tenantId : Nat) (resource : String) (amount : Int)
    (now : Nat) (db : TenantDB) : TenantDB :=
  let field := getQuotaFieldForResource resource
  { db with quotas := (db.quotas.map
      (fun q => if q.tenant_id = tenantId then q.addToField field amount now else q)) }

/-- The input of createTenant. -/
structure CreateTenantData where
  name : String
  slug : String
  email : String
  plan : Option String := none
deriving DecidableEq, Repr

/-- createTenant: INSERT INTO tenants (plan OR free, status active,
timestamps by schema default), then the default tenant_settings row
(10, 1000, 100 plus schema defaults), then the default tenant_quotas row
(10, 1000, 100, 10000 plus schema defaults, reset_date one day ahead);
returns the tenant row mapped to TenantInfo. The slug UNIQUE constraint
makes the first INSERT fail when the slug is taken. -/
def createTenant (data : CreateTenantData) (now : Nat) (db : TenantDB) :
    Except SvcError (TenantInfo × TenantDB) :=
  if db.tenants.any (fun t => t.slug = data.slug) then
    .error .uniqueViolation
  else
    let t : TenantRow :=
      { id := db.nextId, name := data.name, slug := data.slug,
        email := data.email, plan := jsOrStr data.plan "free",
        status := "active", createdAt := now, updatedAt := now,
        deletedAt := none }
    let s : SettingsRow :=
      { tenant_id := t.id, max_users := 10, max_orders := 1000,
        max_events := 100, features := [], webhook_url := none,
        custom_domain := none, data_residency := "us",
        encryption_enabled := false }
    let q : QuotaRow :=
      { tenant_id := t.id, max_users := 10, used_users := 0,
        max_orders := 1000, used_orders := 0, max_events := 100,
        used_events := 0, storage_quota_mb := 1000, used_storage_mb := 0,
        api_calls_per_day := 10000, used_api_calls := 0,
        reset_date := now + oneDay, updated_at := now }
    let db2 : TenantDB :=
      { db with tenants := db.tenants ++ [t],
                settings := db.settings ++ [s],
                quotas := db.quotas ++ [q],
                nextId := db.nextId + 1 }
    .ok ({ id := t.id, name := t.name, slug := t.slug, email := t.email,
           plan := t.plan, status := t.status, createdAt := t.createdAt,
           updatedAt := t.updatedAt, settings := none }, db2)

end TenantSvc

namespace TenantMw

/-- The claims of a JWT payload as consumed by the middleware. -/
structure JWTPayload where
  sub : Option String := none
  tenant_id : Option String := none
  tenant_name : Option String := none
  role : Option String := none
  permissions : Option (List String) := none
  plan : Option String := none
  iat : Option Nat := none
  exp : Option Nat := none
deriving DecidableEq, Repr

/-- A bearer token as handed to jwt.verify: whether it is structurally a
JWT, whether its signature verifies under the shared secret, and the
payload it encodes. -/
structure Token where
  wellFormed : Bool
  validSignature : Bool
  payload : JWTPayload
deriving DecidableEq, Repr

/-- The errors thrown by jwt.verify in the jsonwebtoken library. In that
library the TokenExpiredError class extends JsonWebTokenError, so an
instanceof JsonWebTokenError test is true for every constructor here. -/
inductive JwtVerifyError where
  | malformed
  | invalidSignature
  | expired (expiredAt : Nat)
deriving DecidableEq, Repr

/-- instanceof JsonWebTokenError: true for the base class and for its
subclass TokenExpiredError alike. -/
def JwtVerifyError.isJsonWebTokenError : JwtVerifyError → Bool
  | _ => true

/-- instanceof TokenExpiredError: true only for the expiry error. -/
def JwtVerifyError.isTokenExpiredError : JwtVerifyError → Bool
  | .expired _ => true
  | _ => false

/-- jwt.verify: structure check, then signature check, then the expiry
check against the clock; returns the decoded payload on success. -/
def verify (tok : Token) (now : Nat) : Except JwtVerifyError JWTPayload :=
  if !tok.wellFormed then .error .malformed
  else if !tok.validSignature then .error .invalidSignature
  else
    match tok.payload.exp with
    | some e => if e ≤ now then .error (.expired e) else .ok tok.payload
    | none => .ok tok.payload

/-- The TenantContext the middleware attaches to the request. -/
structure TenantContext where
  tenantId : String
  userId : Option String
  tenantName : Option String
  plan : String
  role : String
  permissions : List String
  issuedAt : Option Nat
  expiresAt : Option Nat
deriving DecidableEq, Repr

/-- The observable outcomes of the middleware: next() with an optional
tenant context on the request, an error JSON response with an HTTP
status, or next(error) for an unrecognized exception. -/
inductive MwOutcome where
  | proceed (ctx : Option TenantContext)
  | reject (status : Nat) (errorCode : String) (message : String)
  | forward (e : JwtVerifyError)
deriving DecidableEq, Repr

/-- The first segment of sub split on the pipe delimiter (in JavaScript a
split never yields an empty array, so index 0 exists). -/
def subFirstSegment (sub : String) : String :=
  match sub.splitOn "|" with
  | [] => ""
  | s :: _ => s

/-- The expression tenant_id OR the first pipe-segment of sub, with
JavaScript truthiness: an empty tenant_id claim also falls through. -/
def tenantIdFrom (decoded : JWTPayload) : Option String :=
  match decoded.tenant_id with
  | some t => if t = "" then decoded.sub.map subFirstSegment else some t
  | none => decoded.sub.map subFirstSegment

/-- Whether an optional string is JavaScript-falsy (absent or empty). -/
def jsFalsy (s : Option String) : Bool :=
  match s with
  | none => true
  | some v => v = ""

/-- tenantExtractorMiddleware. The bearer argument is none when the
request carries no authorization header with a Bearer value, in which
case the request proceeds without tenant context. Otherwise the token is
verified; on an exception the catch block tests instanceof
JsonWebTokenError first and instanceof TokenExpiredError second, in
source order. On success the tenant id is extracted and the context is
built with its JavaScript-truthiness defaults. -/
def tenantExtractorMiddleware (bearer : Option Token) (now : Nat) :
    MwOutcome :=
  match bearer with
  | none => .proceed none
  | some tok =>
    match verify tok now with
    | .error e =>
      if e.isJsonWebTokenError then
        .reject 401 "INVALID_TOKEN" "Token verification failed"
      else if e.isTokenExpiredError then
        .reject 401 "TOKEN_EXPIRED" "Token has expired"
      else
        .forward e
    | .ok decoded =>
      let tid := tenantIdFrom decoded
      if jsFalsy tid then
        .reject 401 "INVALID_TOKEN" "Token does not contain tenant_id"
      else
        .proceed (some
          { tenantId := tid.getD "",
            userId := decoded.sub,
            tenantName := decoded.tenant_name,
            plan := jsOrStr decoded.plan "free",
            role := jsOrStr decoded.role "user",
            permissions := decoded.permissions.getD [],
            issuedAt := decoded.iat,
            expiresAt := decoded.exp })

end TenantMw

namespace BaseRepo

/-- The Order entity of the service. -/
structure Order where
  id : String
  userId : String
  ticketId : String
  quantity : Nat
  totalAmount : String
  status : String
  stripePaymentId : Option String
  nftTokenIds : List String
  createdAt : Nat
  updatedAt : Nat
deriving DecidableEq, Repr

/-- BaseRepository.find in memory mode: returns a copy of the entire
memory store, the where clause and values are not consulted. -/
def memFind {T : Type} (memoryStore : List T) : List T :=
  memoryStore

/-- BaseRepository.find against the relational backend: SELECT * FROM the
table WHERE the given clause; sem denotes the predicate that the where
clause together with its parameter values evaluates to on a row. -/
def dbFind {T : Type} (store : List T) (sem : T → Bool) : List T :=
  store.filter sem

/-- BaseRepository.findAll in memory mode: a copy of the store. -/
def memFindAll {T : Type} (memoryStore : List T) : List T :=
  memoryStore

/-- BaseRepository.findAll against the relational backend: SELECT * with
no filter, every row of the table. -/
def dbFindAll {T : Type} (store : List T) : List T :=
  store

end BaseRepo

namespace TenantRepo

/-- A concrete record of tenant t1 with id x, used as a witness input. -/
def sampleRow : Obj :=
  [("id", .str "x"), ("tenant_id", .str "t1"), ("status", .str "pending")]

/-- A one-row table owned by tenant t1, used as a witness input. -/
def sampleDB : RepoDB :=
  { table := [sampleRow], auditLogs := [], nextId := 0 }

end TenantRepo

namespace TenantSvc

/-- A quota row at 999 of 1000 orders, used as a witness input. -/
def quotaRow999 : QuotaRow :=
  { tenant_id := 1, max_users := 10, used_users := 0, max_orders := 1000,
    used_orders := 999, max_events := 100, used_events := 0,
    storage_quota_mb := 1000, used_storage_mb := 0,
    api_calls_per_day := 10000, used_api_calls := 0, reset_date := 0,
    updated_at := 0 }

/-- A database holding quotaRow999. -/
def quotaDb999 : TenantDB :=
  { tenants := [], settings := [], quotas := [quotaRow999], nextId := 2 }

/-- The TenantQuota object getQuotas reads off quotaRow999. -/
def quota999 : TenantQuota :=
  { tenantId := 1, maxUsers := 10, usedUsers := 0, maxOrders := 1000,
    usedOrders := 999, maxEvents := 100, usedEvents := 0,
    storageQuota := 1000, usedStorage := 0, apiCallsPerDay := 10000,
    usedApiCalls := 0, resetDate := 0 }

/-- The same quota row after one more order: 1000 of 1000 used. -/
def quotaDb1000 : TenantDB :=
  { tenants := [], settings := [],
    quotas := [{ quotaRow999 with used_orders := 1000 }], nextId := 2 }

/-- The TenantQuota object getQuotas reads off quotaDb1000. -/
def quota1000 : TenantQuota :=
  { quota999 with usedOrders := 1000 }

/-- A quota row whose reset_date (time 0) already lies in the past and
whose daily api_calls counter holds 5 calls. -/
def staleResetRow : QuotaRow :=
  { tenant_id := 1, max_users := 10, used_users := 0, max_orders := 1000,
    used_orders := 0, max_events := 100, used_events := 0,
    storage_quota_mb := 1000, used_storage_mb := 0,
    api_calls_per_day := 10000, used_api_calls := 5, reset_date := 0,
    updated_at := 0 }

/-- A database holding staleResetRow. -/
def staleResetDb : TenantDB :=
  { tenants := [], settings := [], quotas := [staleResetRow], nextId := 2 }

/-- An onboarding input with no plan supplied. -/
def acmeData : CreateTenantData :=
  { name := "Acme", slug := "acme", email := "ops@acme.test", plan := none }

/-- The empty database, used as a witness input. -/
def emptyDb : TenantDB :=
  { tenants := [], settings := [], quotas := [], nextId := 0 }

/-- A quota row for witness inputs of the unknown-resource claim. -/
def widgetDb : TenantDB :=
  { tenants := [], settings := [], quotas := [quotaRow999], nextId := 2 }

/-- The tenants row created by the first INSERT of createTenant, with a
given fresh id standing for the generated primary key. -/
def newTenantRow (data : CreateTenantData) (now : Nat) (id : Nat) :
    TenantRow :=
  { id := id, name := data.name, slug := data.slug, email := data.email,
    plan := jsOrStr data.plan "free", status := "active",
    createdAt := now, updatedAt := now, deletedAt := none }

/-- The default tenant_settings row created by the second INSERT of
createTenant (10, 1000, 100 plus the schema column defaults). -/
def newSettingsRow (id : Nat) : SettingsRow :=
  { tenant_id := id, max_users := 10, max_orders := 1000,
    max_events := 100, features := [], webhook_url := none,
    custom_domain := none, data_residency := "us",
    encryption_enabled := false }

/-- The default tenant_quotas row created by the third INSERT of
createTenant (10, 1000, 100, 10000 plus the schema column defaults). -/
def newQuotaRow (now : Nat) (id : Nat) : QuotaRow :=
  { tenant_id := id, max_users := 10, used_users := 0,
    max_orders := 1000, used_orders := 0, max_events := 100,
    used_events := 0, storage_quota_mb := 1000, used_storage_mb := 0,
    api_calls_per_day := 10000, used_api_calls := 0,
    reset_date := now + oneDay, updated_at := now }

/-- The TenantInfo object createTenant returns (no settings attached). -/
def newTenantInfo (data : CreateTenantData) (now : Nat) (id : Nat) :
    TenantInfo :=
  { id := id, name := data.name, slug := data.slug, email := data.email,
    plan := jsOrStr data.plan "free", status := "active",
    createdAt := now, updatedAt := now, settings := none }

/-- The TenantSettings object getTenantSettings maps off newSettingsRow. -/
def defaultMappedSettings : TenantSettings :=
  { maxUsers := 10, maxOrders := 1000, maxEvents := 100,
    features := some [], webhookUrl := none, customDomain := none,
    dataResidency := "us", encryptionEnabled := false }

/-- The database state after a successful createTenant. -/
def afterCreate (data : CreateTenantData) (now : Nat) (db : TenantDB) :
    TenantDB :=
  { db with tenants := db.tenants ++ [newTenantRow data now db.nextId],
            settings := db.settings ++ [newSettingsRow db.nextId],
            quotas := db.quotas ++ [newQuotaRow now db.nextId],
            nextId := db.nextId + 1 }

end TenantSvc

namespace TenantMw

/-- A structurally sound, correctly signed token whose expiry (time 10)
lies in the past relative to the clock value 100. -/
def expiredToken : Token :=
  { wellFormed := true, validSignature := true,
    payload := { sub := some "tenant-a|user-1",
                 tenant_id := some "tenant-a", exp := some 10 } }

end TenantMw

namespace BaseRepo

/-- A concrete order owned by user bob, used as a counterexample input. -/
def bobOrder : Order :=
  { id := "o1", userId := "bob", ticketId := "t1", quantity := 1,
    totalAmount := "100", status := "pending", stripePaymentId := none,
    nftTokenIds := [], createdAt := 0, updatedAt := 0 }

/-- The denotation of the where clause user_id = $1 with the parameter
list holding alice. -/
def whereUserIsAlice (o : Order) : Bool :=
  decide (o.userId = "alice")

end BaseRepo

/-! Theorems. Helper lemmas first, then one theorem per claim with its
witness or counterexample. -/

/-- Reading back the key just written. -/
theorem Obj.get_set_self (o : Obj) (k : String) (v : Value) :
    (o.set k v).get k = some v := by
  have hnone : (o.filter (fun p => p.1 ≠ k)).find? (fun p => p.1 = k) = none := by
    rw [List.find?_eq_none]
    intro x hx
    have hne := (List.mem_filter.mp hx).2
    simp only [decide_not, Bool.not_eq_true', decide_eq_false_iff_not] at hne
    simp [hne]
  simp [Obj.set, Obj.get, List.find?_append, hnone]

/-- Filtering by a predicate that holds wherever the searched-for
predicate holds does not change the result of the search. -/
theorem find?_filter_comm {α : Type} (l : List α) (p q : α → Bool)
    (himp : ∀ a, p a = true → q a = true) :
    (l.filter q).find? p = l.find? p := by
  induction l with
  | nil => rfl
  | cons a l ih =>
    cases hq : q a with
    | true =>
      cases hp : p a with
      | true => simp [List.filter_cons, hq, List.find?_cons, hp]
      | false => simp [List.filter_cons, hq, List.find?_cons, hp, ih]
    | false =>
      have hp : p a = false := by
        cases hpa : p a with
        | true => exact absurd (himp a hpa) (by simp [hq])
        | false => rfl
      simp [List.filter_cons, hq, List.find?_cons, hp, ih]

/-- Writing one key leaves every other key unchanged. -/
theorem Obj.get_set_ne (o : Obj) (k k2 : String) (v : Value) (h : k2 ≠ k) :
    (o.set k v).get k2 = o.get k2 := by
  unfold Obj.set Obj.get
  rw [List.find?_append]
  have hlast : (([(k, v)] : Obj).find? (fun p => p.1 = k2)) = none := by
    have hd : decide (((k, v) : String × Value).1 = k2) = false := by
      simp only [decide_eq_false_iff_not]
      exact fun heq => h heq.symm
    simp [List.find?, hd]
  rw [hlast]
  have hfil := find?_filter_comm o (fun p => decide (p.1 = k2))
    (fun p => decide (p.1 ≠ k))
    (by
      intro a ha
      simp only [decide_eq_true_eq] at ha
      simp only [decide_eq_true_eq]
      rw [ha]
      exact h)
  rw [hfil]
  cases o.find? (fun p => decide (p.1 = k2)) <;> rfl

namespace TenantRepo

/-- The table component is unaffected by logAudit, whether or not the
audit INSERT succeeds. -/
theorem logAudit_table (tenantId : String) (userId : Option String)
    (action resource : String) (resourceId : Option Value)
    (changes previous : Option Obj) (now : Nat) (auditOk : Bool)
    (st : RepoDB) :
    (logAudit tenantId userId action resource resourceId changes previous
      now auditOk st).table = st.table := by
  unfold logAudit
  split <;> rfl

/-- C10: for every tenantId and every data object, even one carrying its
own tenant_id key for a different tenant, create returns a record whose
tenant_id equals the tenantId argument and appends exactly that record to
the table, so create can never write a row into another tenant scope. -/
theorem create_overrides_tenant_id (tenantId : String) (data : Obj)
    (options : TenantQueryOptions) (tableName : String) (now : Nat)
    (auditOk : Bool) (st : RepoDB) :
    ∃ rec, (create tenantId data options tableName now auditOk st).1 = .ok rec ∧
      rec.get "tenant_id" = some (.str tenantId) ∧
      ((create tenantId data options tableName now auditOk st).2).table =
        st.table ++ [rec] := by
  have h1 : ("tenant_id" : String) ≠ "updated_at" := by decide
  have h2 : ("tenant_id" : String) ≠ "created_at" := by decide
  have h3 : ("tenant_id" : String) ≠ "id" := by decide
  have hten : (((data.set "tenant_id" (.str tenantId)).set "created_at"
      (.time now)).set "updated_at" (.time now)).get "tenant_id" =
      some (.str tenantId) := by
    rw [Obj.get_set_ne _ _ _ _ h1, Obj.get_set_ne _ _ _ _ h2,
      Obj.get_set_self]
  rcases hid : (((data.set "tenant_id" (.str tenantId)).set "created_at"
      (.time now)).set "updated_at" (.time now)).get "id" with _ | w
  · refine ⟨(((data.set "tenant_id" (.str tenantId)).set "created_at"
        (.time now)).set "updated_at" (.time now)).set "id"
        (.str (String.append "gen-" (toString st.nextId))), ?_, ?_, ?_⟩
    · simp only [create, hid]
    · rw [Obj.get_set_ne _ _ _ _ h3]
      exact hten
    · simp only [create, hid]
      split
      · rw [logAudit_table]
      · rfl
  · refine ⟨_, ?_, hten, ?_⟩
    · simp only [create, hid]
    · simp only [create, hid]
      split
      · rw [logAudit_table]
      · rfl

/-- C2: when no stored record carries the pair (tenantId, id) -- in
particular when the record exists but under another tenant -- update and
delete fail with the not-found error and return the state entirely
unchanged: the read-before-write check runs before any mutation. -/
theorem write_pre_check_no_mutation (tenantId id : String) (data : Obj)
    (options : TenantQueryOptions) (tableName : String) (now : Nat)
    (auditOk : Bool) (st : RepoDB)
    (habsent : ∀ r ∈ st.table, rowMatches tenantId id r = false) :
    update tenantId id data options tableName now auditOk st =
      (.error .notFound, st) ∧
    delete tenantId id options tableName now auditOk st =
      (.error .notFound, st) := by
  have hfil : st.table.filter (rowMatches tenantId id) = [] := by
    rw [List.filter_eq_nil_iff]
    intro x hx
    simp [habsent x hx]
  have hfb : findById tenantId id st.table = .error .notFound := by
    unfold findById
    rw [hfil]
    rfl
  constructor
  · unfold update
    rw [hfb]
  · unfold delete
    rw [hfb]

/-- Witness for C2: updating or deleting the record of tenant t1 under
tenant t2 fails not-found and leaves the database unchanged. -/
theorem write_pre_check_no_mutation_witness :
    update "t2" "x" [("status", .str "completed")] {} "orders" 5 true
      sampleDB = (.error .notFound, sampleDB) ∧
    delete "t2" "x" {} "orders" 5 true sampleDB =
      (.error .notFound, sampleDB) :=
  write_pre_check_no_mutation "t2" "x" [("status", .str "completed")] {}
    "orders" 5 true sampleDB (by decide)

/-- C1: a record created under tenant A is invisible to tenant B: findAll
under B never returns it, and findById under B on its id fails not-found
(ids are globally unique by the primary key of the schema), so a foreign
record is indistinguishable from a nonexistent one. -/
theorem tenant_read_isolation (A B idv : String) (r : Obj)
    (table : List Obj) (options : FindAllOptions)
    (hAB : A ≠ B) (hr : r ∈ table)
    (hTen : r.get "tenant_id" = some (.str A))
    (hId : r.get "id" = some (.str idv))
    (hPK : ∀ r2 ∈ table, r2.get "id" = some (.str idv) → r2 = r) :
    r ∉ findAll B options table ∧
    findById B idv table = .error .notFound := by
  constructor
  · intro hmem
    simp only [findAll] at hmem
    have hdrop : r ∈ (table.filter
        (fun x => decide (x.get "tenant_id" = some (.str B)))).drop
          (jsOrNat options.offset 0) :=
      List.take_subset _ _ hmem
    have hflt : r ∈ table.filter
        (fun x => decide (x.get "tenant_id" = some (.str B))) :=
      List.drop_subset _ _ hdrop
    have hB := (List.mem_filter.mp hflt).2
    rw [hTen] at hB
    simp only [decide_eq_true_eq, Option.some.injEq, Value.str.injEq] at hB
    exact hAB hB
  · have hfil : table.filter (rowMatches B idv) = [] := by
      rw [List.filter_eq_nil_iff]
      intro x hx hmatch
      unfold rowMatches at hmatch
      simp only [Bool.and_eq_true, decide_eq_true_eq] at hmatch
      obtain ⟨hxt, hxi⟩ := hmatch
      have hxr := hPK x hx hxi
      subst hxr
      rw [hTen] at hxt
      simp only [Option.some.injEq, Value.str.injEq] at hxt
      exact hAB hxt
    unfold findById
    rw [hfil]
    rfl

/-- Witness for C1 at a concrete one-row table of tenant t1. -/
theorem tenant_read_isolation_witness :
    sampleRow ∉ findAll "t2" {} [sampleRow] ∧
    findById "t2" "x" [sampleRow] = .error .notFound :=
  tenant_read_isolation "t1" "t2" "x" sampleRow [sampleRow] {}
    (by decide) (by decide) (by decide) (by decide) (by decide)

/-- C5: audit logging is best-effort. For create, update and delete, the
operation result and the resulting business table are identical whether
the audit INSERT succeeds or fails: an audit failure is caught inside
logAudit and never propagates to the caller nor rolls anything back. -/
theorem audit_failure_never_propagates (tenantId id : String) (data : Obj)
    (options : TenantQueryOptions) (tableName : String) (now : Nat)
    (st : RepoDB) :
    (create tenantId data options tableName now true st).1 =
      (create tenantId data options tableName now false st).1 ∧
    ((create tenantId data options tableName now true st).2).table =
      ((create tenantId data options tableName now false st).2).table ∧
    (update tenantId id data options tableName now true st).1 =
      (update tenantId id data options tableName now false st).1 ∧
    ((update tenantId id data options tableName now true st).2).table =
      ((update tenantId id data options tableName now false st).2).table ∧
    (delete tenantId id options tableName now true st).1 =
      (delete tenantId id options tableName now false st).1 ∧
    ((delete tenantId id options tableName now true st).2).table =
      ((delete tenantId id options tableName now false st).2).table := by
  refine ⟨rfl, ?_, ?_, ?_, ?_, ?_⟩ <;>
    simp only [create, update, delete] <;>
    (repeat' split) <;> simp [logAudit_table]

end TenantRepo

namespace TenantSvc

/-- The common shape of each branch of validateQuota. -/
theorem validate_branch_iff (c : Prop) [Decidable c] (e : SvcError) :
    (((if c then (.error e : Except SvcError Bool) else .ok true) = .error e) ↔ c) ∧
    (((if c then (.error e : Except SvcError Bool) else .ok true) = .ok true) ↔ ¬c) := by
  by_cases hc : c <;> simp [hc]

/-- C4: for each recognized resource, validateQuota fails quota-exceeded
exactly when the used counter has reached the ceiling and succeeds
exactly when it is still below it. -/
theorem validateQuota_exceeded_iff (tenantId : Nat) (db : TenantDB)
    (q : TenantQuota) (hq : getQuotas tenantId db = .ok q) :
    ((validateQuota tenantId "users" db = .error (.quotaExceeded "users") ↔
        q.maxUsers ≤ q.usedUsers) ∧
      (validateQuota tenantId "users" db = .ok true ↔
        q.usedUsers < q.maxUsers)) ∧
    ((validateQuota tenantId "orders" db = .error (.quotaExceeded "orders") ↔
        q.maxOrders ≤ q.usedOrders) ∧
      (validateQuota tenantId "orders" db = .ok true ↔
        q.usedOrders < q.maxOrders)) ∧
    ((validateQuota tenantId "events" db = .error (.quotaExceeded "events") ↔
        q.maxEvents ≤ q.usedEvents) ∧
      (validateQuota tenantId "events" db = .ok true ↔
        q.usedEvents < q.maxEvents)) ∧
    ((validateQuota tenantId "api_calls" db =
        .error (.quotaExceeded "api_calls") ↔
        q.apiCallsPerDay ≤ q.usedApiCalls) ∧
      (validateQuota tenantId "api_calls" db = .ok true ↔
        q.usedApiCalls < q.apiCallsPerDay)) := by
  refine ⟨⟨?_, ?_⟩, ⟨?_, ?_⟩, ⟨?_, ?_⟩, ⟨?_, ?_⟩⟩ <;>
    simp only [validateQuota, hq] <;>
    norm_num <;>
    first
      | simpa using (validate_branch_iff _ _).1
      | simpa [not_le] using (validate_branch_iff _ _).2

/-- Witness for C4 at the 999-of-1000 orders scenario: the next order is
allowed at 999 used and refused at 1000 used. -/
theorem validateQuota_exceeded_iff_witness :
    (validateQuota 1 "orders" quotaDb999 = .ok true ∧
      validateQuota 1 "orders" quotaDb1000 =
        .error (.quotaExceeded "orders")) ∧
    (validateQuota 1 "orders" quotaDb999 = .ok true ↔
      quota999.usedOrders < quota999.maxOrders) := by
  have h999 :=
    ((validateQuota_exceeded_iff 1 quotaDb999 quota999 (by rfl)).2.1).2
  have h1000 :=
    ((validateQuota_exceeded_iff 1 quotaDb1000 quota1000 (by rfl)).2.1).1
  exact ⟨⟨h999.mpr (by decide), h1000.mpr (by decide)⟩, h999⟩

/-- No branch of the dynamic SET clause touches reset_date. -/
theorem addToField_reset_date (q : QuotaRow) (field : String) (amount : Int)
    (now : Nat) :
    (q.addToField field amount now).reset_date = q.reset_date := by
  unfold QuotaRow.addToField
  split_ifs <;> rfl

/-- The api_calls column update adds the amount to the counter. -/
theorem addToField_api_calls (q : QuotaRow) (amount : Int) (now : Nat) :
    (q.addToField "used_api_calls" amount now).used_api_calls =
      q.used_api_calls + amount := by
  simp [QuotaRow.addToField]

/-- C7 counterexample: at clock time 100, with reset_date 0 already in
the past, getQuotas still reports the stale daily counter (5) with the
old reset_date, and an api_calls increment adds to the counter (6)
without resetting it or advancing reset_date -- no lazy rollover exists. -/
theorem no_lazy_reset_counterexample :
    getQuotas 1 staleResetDb = .ok
      { tenantId := 1, maxUsers := 10, usedUsers := 0, maxOrders := 1000,
        usedOrders := 0, maxEvents := 100, usedEvents := 0,
        storageQuota := 1000, usedStorage := 0, apiCallsPerDay := 10000,
        usedApiCalls := 5, resetDate := 0 } ∧
    (incrementQuota 1 "api_calls" 1 100 staleResetDb).quotas =
      [{ staleResetRow with used_api_calls := 6, updated_at := 100 }] := by
  constructor
  · rfl
  · rfl

/-- C7 amended: the quota layer implements no rollover at all.
incrementQuota never changes reset_date for any resource, and an
api_calls increment adds to the stored counter instead of resetting it;
getQuotas and validateQuota take no clock input and return the stored
counters as-is. -/
theorem incrementQuota_no_rollover (tenantId : Nat) (resource : String)
    (amount : Int) (now : Nat) (db : TenantDB) :
    (incrementQuota tenantId resource amount now db).quotas.map
        (fun q => q.reset_date) =
      db.quotas.map (fun q => q.reset_date) ∧
    (incrementQuota tenantId "api_calls" amount now db).quotas.map
        (fun q => q.used_api_calls) =
      db.quotas.map (fun q => if q.tenant_id = tenantId then
        q.used_api_calls + amount else q.used_api_calls) := by
  have hf : getQuotaFieldForResource "api_calls" = "used_api_calls" := rfl
  constructor
  · unfold incrementQuota
    rw [List.map_map]
    apply List.map_congr_left
    intro q hq
    simp only [Function.comp_apply]
    split
    · rw [addToField_reset_date]
    · rfl
  · unfold incrementQuota
    rw [hf, List.map_map]
    apply List.map_congr_left
    intro q hq
    simp only [Function.comp_apply]
    split
    · rw [addToField_api_calls]
    · rfl

/-- The resource-to-column map sends unrecognized names to used_orders. -/
theorem getQuotaFieldForResource_unknown (resource : String)
    (h : resource ∉ ["users", "orders", "events", "api_calls", "storage"]) :
    getQuotaFieldForResource resource = "used_orders" := by
  unfold getQuotaFieldForResource
  cases hf : quotaFieldMap.find? (fun p => p.1 = resource) with
  | none => rfl
  | some p =>
    exfalso
    have hp := List.find?_some hf
    have hmem := List.mem_of_find?_eq_some hf
    simp only [decide_eq_true_eq] at hp
    unfold quotaFieldMap at hmem
    simp only [List.mem_cons, List.not_mem_nil, or_false] at hmem
    rcases hmem with h1 | h1 | h1 | h1 | h1 <;> (subst h1; simp_all)

/-- C9: for a resource name outside the recognized set, incrementQuota
does not fail and silently adds the amount to the used_orders counter of
the tenant, leaving every other usage counter and reset_date unchanged. -/
theorem incrementQuota_unknown_hits_used_orders (resource : String)
    (tenantId : Nat) (amount : Int) (now : Nat) (db : TenantDB)
    (h : resource ∉ ["users", "orders", "events", "api_calls", "storage"]) :
    (incrementQuota tenantId resource amount now db).quotas.map
        (fun q => q.used_orders) =
      db.quotas.map (fun q => if q.tenant_id = tenantId then
        q.used_orders + amount else q.used_orders) ∧
    (incrementQuota tenantId resource amount now db).quotas.map
        (fun q => (q.used_users, q.used_events, q.used_api_calls,
          q.used_storage_mb, q.reset_date)) =
      db.quotas.map (fun q => (q.used_users, q.used_events,
        q.used_api_calls, q.used_storage_mb, q.reset_date)) := by
  have hf := getQuotaFieldForResource_unknown resource h
  constructor <;>
  · unfold incrementQuota
    rw [hf, List.map_map]
    apply List.map_congr_left
    intro q hq
    simp only [Function.comp_apply]
    split
    · rfl
    · rfl

/-- Witness for C9: incrementing the unrecognized resource widgets adds
one to used_orders of tenant 1. -/
theorem incrementQuota_unknown_witness :
    (incrementQuota 1 "widgets" 1 7 widgetDb).quotas.map
        (fun q => q.used_orders) =
      widgetDb.quotas.map (fun q => if q.tenant_id = 1 then
        q.used_orders + 1 else q.used_orders) ∧
    (incrementQuota 1 "widgets" 1 7 widgetDb).quotas.map
        (fun q => (q.used_users, q.used_events, q.used_api_calls,
          q.used_storage_mb, q.reset_date)) =
      widgetDb.quotas.map (fun q => (q.used_users, q.used_events,
        q.used_api_calls, q.used_storage_mb, q.reset_date)) :=
  incrementQuota_unknown_hits_used_orders "widgets" 1 1 7 widgetDb
    (by decide)

end TenantSvc


namespace TenantSvc

/-- C6: tenant onboarding round trip. Against a database whose existing
ids and settings foreign keys respect the fresh-id counter and whose
slugs avoid the new one (the UNIQUE constraint), createTenant succeeds
and getTenantInfo on the returned id yields the submitted name, slug and
email, the plan (defaulting to free when not supplied), status active,
the materialized default settings, and a materialized default quota row. -/
theorem createTenant_roundtrip (data : CreateTenantData) (now : Nat)
    (db : TenantDB)
    (hIds : ∀ t ∈ db.tenants, t.id < db.nextId)
    (hSlug : ∀ t ∈ db.tenants, t.slug ≠ data.slug)
    (hSet : ∀ s ∈ db.settings, s.tenant_id < db.nextId) :
    ∃ info db2, createTenant data now db = .ok (info, db2) ∧
      info.id = db.nextId ∧
      getTenantInfo info.id db2 = .ok
        { id := db.nextId, name := data.name, slug := data.slug,
          email := data.email, plan := jsOrStr data.plan "free",
          status := "active", createdAt := now, updatedAt := now,
          settings := some defaultMappedSettings } ∧
      ∃ q ∈ db2.quotas, q.tenant_id = info.id ∧ q.max_users = 10 ∧
        q.used_users = 0 ∧ q.max_orders = 1000 ∧ q.used_orders = 0 ∧
        q.max_events = 100 ∧ q.used_events = 0 ∧
        q.api_calls_per_day = 10000 ∧ q.used_api_calls = 0 := by
  have hAny : (db.tenants.any fun t => t.slug = data.slug) = false := by
    rw [List.any_eq_false]
    intro t ht
    simp only [decide_eq_true_eq]
    exact hSlug t ht
  have hstep : createTenant data now db =
      .ok (newTenantInfo data now db.nextId, afterCreate data now db) := by
    unfold createTenant
    rw [hAny, if_neg (by simp : ¬(false = true))]
    rfl
  refine ⟨newTenantInfo data now db.nextId, afterCreate data now db,
    hstep, rfl, ?_, ?_⟩
  · have hT : (db.tenants ++ [newTenantRow data now db.nextId]).find?
        (fun t => t.id = db.nextId && t.deletedAt.isNone) =
        some (newTenantRow data now db.nextId) := by
      rw [List.find?_append]
      have h0 : db.tenants.find?
          (fun t => t.id = db.nextId && t.deletedAt.isNone) = none := by
        rw [List.find?_eq_none]
        intro t ht
        have hlt := hIds t ht
        simp only [Bool.and_eq_true, decide_eq_true_eq, not_and]
        intro hid
        omega
      rw [h0]
      simp [List.find?, newTenantRow]
    have hS : (db.settings ++ [newSettingsRow db.nextId]).find?
        (fun s => s.tenant_id = db.nextId) =
        some (newSettingsRow db.nextId) := by
      rw [List.find?_append]
      have h0 : db.settings.find? (fun s => s.tenant_id = db.nextId) =
          none := by
        rw [List.find?_eq_none]
        intro s hs
        have hlt := hSet s hs
        simp only [decide_eq_true_eq]
        omega
      rw [h0]
      simp [List.find?, newSettingsRow]
    show getTenantInfo (newTenantInfo data now db.nextId).id
      (afterCreate data now db) = _
    simp only [newTenantInfo, getTenantInfo, getTenantSettings,
      afterCreate]
    rw [hT, hS]
    rfl
  · refine ⟨newQuotaRow now db.nextId, ?_, rfl, rfl, rfl, rfl, rfl, rfl,
      rfl, rfl, rfl⟩
    simp [afterCreate]

/-- Witness for C6 on the empty database with the sample input. -/
theorem createTenant_roundtrip_witness :
    ∃ info db2, createTenant acmeData 100 emptyDb = .ok (info, db2) ∧
      info.id = emptyDb.nextId ∧
      getTenantInfo info.id db2 = .ok
        { id := emptyDb.nextId, name := acmeData.name,
          slug := acmeData.slug, email := acmeData.email,
          plan := jsOrStr acmeData.plan "free", status := "active",
          createdAt := 100, updatedAt := 100,
          settings := some defaultMappedSettings } ∧
      ∃ q ∈ db2.quotas, q.tenant_id = info.id ∧ q.max_users = 10 ∧
        q.used_users = 0 ∧ q.max_orders = 1000 ∧ q.used_orders = 0 ∧
        q.max_events = 100 ∧ q.used_events = 0 ∧
        q.api_calls_per_day = 10000 ∧ q.used_api_calls = 0 :=
  createTenant_roundtrip acmeData 100 emptyDb
    (by simp [emptyDb]) (by simp [emptyDb]) (by simp [emptyDb])

end TenantSvc

namespace TenantMw

/-- C3 (code bug): a structurally sound, correctly signed credential
whose expiry lies in the past is answered with 401 INVALID_TOKEN, not
with 401 TOKEN_EXPIRED. jwt.verify throws TokenExpiredError, which is a
subclass of JsonWebTokenError in the jsonwebtoken library, so the catch
branch testing instanceof JsonWebTokenError first captures it and the
TOKEN_EXPIRED branch below it is unreachable. -/
theorem expired_token_rejected_as_invalid :
    tenantExtractorMiddleware (some expiredToken) 100 =
      .reject 401 "INVALID_TOKEN" "Token verification failed" := by
  rfl

end TenantMw

namespace BaseRepo

/-- C8 counterexample: with the store holding one order of user bob and
the where clause user_id = $1 bound to alice, find in memory mode returns
the bob order while the relational backend returns the empty set, so the
two backends are not behaviorally identical. -/
theorem memFind_ignores_where_clause :
    memFind [bobOrder] ≠ dbFind [bobOrder] whereUserIsAlice ∧
    memFind [bobOrder] = [bobOrder] ∧
    dbFind [bobOrder] whereUserIsAlice = [] := by
  refine ⟨?_, rfl, ?_⟩
  · decide
  · decide

/-- C8 amended: findAll is equivalent across the two backends (both
return every record), but find in memory mode ignores the where clause
and returns the whole store, so the backends agree on find exactly when
every stored record already satisfies the filter. -/
theorem backend_find_equiv_iff_filter_total {T : Type} (store : List T)
    (sem : T → Bool) :
    memFindAll store = dbFindAll store ∧
    memFind store = store ∧
    (memFind store = dbFind store sem ↔ ∀ o ∈ store, sem o = true) := by
  refine ⟨rfl, rfl, ?_⟩
  unfold memFind dbFind
  constructor
  · intro h
    exact fun o ho => List.filter_eq_self.mp h.symm o ho
  · intro h
    exact (List.filter_eq_self.mpr h).symm

end BaseRepo
